import Mathlib

/-!
Verification of the Krylov-subspace solvers of
`src/Python/tigre/algorithms/krylov_subspace_algorithms.py` (classes `CGLS`,
`LSQR`, `LSMR`).

Shallow embedding conventions:
* Image-space buffers live in an abstract type `V`, data-space buffers in `P`;
  both are `ℚ`-modules.  Elementwise numpy arithmetic (`+`, `-`, scalar `*`,
  `/scalar`) becomes the module operations.
* The expensive external operators `Ax` (forward projection) and `Atb`
  (backprojection) are opaque functions supplied in a `KOps` record, exactly
  as they are opaque external calls in the source.  `np.linalg.norm` and
  `np.sqrt` are likewise carried as record fields (`normV`/`normP`, `sqrt`):
  the solvers never inspect their definitions, only their values.
* Floating-point numbers are modelled by exact rationals.  The special values
  NaN/Inf that `np.isnan` looks for are modelled in two ways: the main
  recurrence model carries the `np.isnan` tests as opaque predicates
  (`isnanV`, `isnanP`, `isnanQ` in `KOps`), and the scan of lines 64-69 is
  additionally modelled in full over a dedicated special-value domain `FV`
  (see `cglsNanScan`) for the claims that are about NaN/Inf detection itself.
* The per-iteration wall-clock list `avgtime` is modelled by its length only
  (an `ℕ` counter): the solvers only ever observe `len(avgtime)` (in the
  final average-time print), never the stored durations.
-/

/-- Record of the external numeric primitives consumed by the solvers:
the forward operator `Ax`, the adjoint operator `Atb`, the Euclidean norm on
each space (`np.linalg.norm`), scalar square root (`np.sqrt`) and the
`np.isnan` tests on each kind of value. -/
structure KOps (V P : Type) where
  Ax : V → P
  Atb : P → V
  normV : V → ℚ
  normP : P → ℚ
  sqrt : ℚ → ℚ
  isnanV : V → Bool
  isnanP : P → Bool
  isnanQ : ℚ → Bool

/-! ## CGLS (source lines 19-105) -/

/-- The numeric state of a `CGLS` instance: the solution estimate `res`,
the residual `r` (`self.__r__`), the search direction `p` (`self.__p__`),
the scalar `gamma` (`self.__gamma__`), the restart marker
`re_init` (`self.re_init_at_iteration`) and the convergence history `l2l`
(`self.l2l`, preallocated to length `niter` by `run_main_iter`). -/
structure CGLSState (V P : Type) where
  res : V
  r : P
  p : V
  gamma : ℚ
  re_init : ℕ
  l2l : List ℚ
deriving DecidableEq

/-- `CGLS.__init__` lines 33-39: `re_init_at_iteration = 0`,
`r = proj - Ax(res)`, `p = Atb(r)`, `gamma = ||p||²`.
(`l2l` is only created by `run_main_iter`, hence starts empty.) -/
def cglsInit {V P : Type} [AddCommGroup V] [Module ℚ V] [AddCommGroup P] [Module ℚ P]
    (ops : KOps V P) (proj : P) (res0 : V) : CGLSState V P :=
  let r := proj - ops.Ax res0
  let p := ops.Atb r
  { res := res0, r := r, p := p, gamma := ops.normV p * ops.normV p,
    re_init := 0, l2l := [] }

/-- `CGLS.reinitialise_cgls` lines 41-45: recompute `r`, `p`, `gamma` from the
current `res`; all other fields are untouched. -/
def reinitialise_cgls {V P : Type} [AddCommGroup V] [Module ℚ V] [AddCommGroup P] [Module ℚ P]
    (ops : KOps V P) (proj : P) (st : CGLSState V P) : CGLSState V P :=
  let r := proj - ops.Ax st.res
  let p := ops.Atb r
  { st with r := r, p := p, gamma := ops.normV p * ops.normV p }

/-- Lines 58-60: `q = Ax(p)`, `alpha = gamma / ||q||²`.  The source binds
`q` once with a `let`; `ops.Ax` is pure, so referring to `ops.Ax st.p`
twice denotes the same value. -/
def cglsAlpha {V P : Type} (ops : KOps V P) (st : CGLSState V P) : ℚ :=
  st.gamma / (ops.normP (ops.Ax st.p) * ops.normP (ops.Ax st.p))

/-- Line 61: the stepped solution `res + alpha * p`. -/
def cglsRes1 {V P : Type} [AddCommGroup V] [Module ℚ V]
    (ops : KOps V P) (st : CGLSState V P) : V :=
  st.res + cglsAlpha ops st • st.p

/-- Lines 71-74: the history after writing slot `i` with the freshly
recomputed residual norm `||proj - Ax(res + alpha*p)||` (a second forward
evaluation, independent of the `q` of line 58). -/
def cglsL2l1 {V P : Type} [AddCommGroup V] [Module ℚ V] [AddCommGroup P] [Module ℚ P]
    (ops : KOps V P) (proj : P) (i : ℕ) (st : CGLSState V P) : List ℚ :=
  st.l2l.set i (ops.normP (proj - ops.Ax (cglsRes1 ops st)))

/-- Lines 64-69 on the exact-value model: scan the ndarray-valued attributes
with `np.isnan` (here the opaque `isnan` predicates of `KOps`), in
`self.__dict__` insertion order, raising `ValueError` on the first hit.
Scalar attributes such as `self.__gamma__` are floats, not `np.ndarray`, so
the `isinstance` filter of line 66 skips them; `np.isinf` is never used.
(The geometry array `self.angles` is a constant input outside the numeric
state and is omitted.)  The misspelling "iteraton" is the source's. -/
def cglsScanChk {V P : Type} (ops : KOps V P) (proj : P) (res1 : V)
    (st : CGLSState V P) (i : ℕ) : Option String :=
  if ops.isnanP proj then some ("nan found for proj at iteraton " ++ toString i)
  else if ops.isnanV res1 then some ("nan found for res at iteraton " ++ toString i)
  else if ops.isnanP st.r then some ("nan found for _CGLS__r__ at iteraton " ++ toString i)
  else if ops.isnanV st.p then some ("nan found for _CGLS__p__ at iteraton " ++ toString i)
  else if st.l2l.any ops.isnanQ then some ("nan found for l2l at iteraton " ++ toString i)
  else none

/-- Lines 86-94, the unconditional tail of every non-returning loop
iteration: `r -= alpha*q`, `s = Atb(r)`, `gamma1 = ||s||²`,
`beta = gamma1/gamma`, `gamma = gamma1`, `p = s + beta*p`.
`alpha` and `q` are the values bound at lines 58-60 of the same iteration. -/
def cglsTail {V P : Type} [AddCommGroup V] [Module ℚ V] [AddCommGroup P] [Module ℚ P]
    (ops : KOps V P) (st : CGLSState V P) (alpha : ℚ) (q : P) : CGLSState V P :=
  let r1 := st.r - alpha • q
  let s := ops.Atb r1
  let gamma1 := ops.normV s * ops.normV s
  { st with r := r1, gamma := gamma1, p := s + (gamma1 / st.gamma) • st.p }

/-- Outcome of one `CGLS` loop body: `abort` models the `ValueError` raise of
line 69 (carrying the mutated state at raise time), `ret` the early
`return self.res` of line 81 and `next` normal fall-through to the next
iteration. -/
inductive CGLSBodyOut (V P : Type) where
  | abort : String → CGLSState V P → CGLSBodyOut V P
  | ret : CGLSState V P → CGLSBodyOut V P
  | next : CGLSState V P → CGLSBodyOut V P
deriving DecidableEq

/-- The state carried by a `CGLSBodyOut` (the `self` object as mutated by the
iteration, whichever way the iteration ended). -/
def CGLSBodyOut.state {V P : Type} : CGLSBodyOut V P → CGLSState V P
  | .abort _ st => st
  | .ret st => st
  | .next st => st

/-- Whether the body performed the early `return` of line 81. -/
def CGLSBodyOut.isRet {V P : Type} : CGLSBodyOut V P → Bool
  | .ret _ => true
  | _ => false

/-- One iteration of `CGLS.run_main_iter` (loop body, lines 57-96), together
with the number of forward (`Ax`) and adjoint (`Atb`) operator calls the
iteration performed, in that order.  Branches:
* the NaN scan raises (lines 64-69): 1 forward call (`q`), 0 adjoint;
* divergence trigger and `re_init_at_iteration + 1 == i` (lines 78-81):
  early return of the stepped `res`; 2 forward calls, 0 adjoint;
* divergence trigger otherwise (lines 82-84 and then, with no `continue` in
  the source, lines 86-94 as well): step undone, `reinitialise_cgls`
  (1 forward + 1 adjoint), marker set to `i`, then the tail of lines 86-94
  still runs on the reinitialised state with the stale `alpha` and `q`;
  3 forward calls, 2 adjoint;
* no trigger: the tail; 2 forward calls, 1 adjoint. -/
def cglsBody {V P : Type} [AddCommGroup V] [Module ℚ V] [AddCommGroup P] [Module ℚ P]
    (ops : KOps V P) (proj : P) (i : ℕ) (st : CGLSState V P) :
    CGLSBodyOut V P × ℕ × ℕ :=
  match cglsScanChk ops proj (cglsRes1 ops st) st i with
  | some m => (.abort m { st with res := cglsRes1 ops st }, 1, 0)
  | none =>
    if 0 < i ∧ (cglsL2l1 ops proj i st).getD (i - 1) 0 < (cglsL2l1 ops proj i st).getD i 0 then
      if st.re_init + 1 = i then
        (.ret { st with res := cglsRes1 ops st, l2l := cglsL2l1 ops proj i st }, 2, 0)
      else
        (.next (cglsTail ops
          (reinitialise_cgls ops proj
            { st with res := cglsRes1 ops st - cglsAlpha ops st • st.p,
                      l2l := cglsL2l1 ops proj i st, re_init := i })
          (cglsAlpha ops st) (ops.Ax st.p)), 3, 2)
    else
      (.next (cglsTail ops
        { st with res := cglsRes1 ops st, l2l := cglsL2l1 ops proj i st }
        (cglsAlpha ops st) (ops.Ax st.p)), 2, 1)

/-- Result of `CGLS.run_main_iter`: an uncaught exception (`err`, carrying
the message and the object state at raise time), the early return of
line 81 (`early`), or normal loop completion (`done`, carrying
`len(avgtime)` for the final verbose print). -/
inductive CGLSResult (V P : Type) where
  | err : String → CGLSState V P → CGLSResult V P
  | early : CGLSState V P → CGLSResult V P
  | done : CGLSState V P → ℕ → CGLSResult V P
deriving DecidableEq

/-- The object state at the end of a `CGLS.run_main_iter` call, however it
ended. -/
def cglsResState {V P : Type} : CGLSResult V P → CGLSState V P
  | .err _ st => st
  | .early st => st
  | .done st _ => st

/-- The `for i in range(self.niter)` loop of `CGLS.run_main_iter`:
`n` iterations remain, `i` is the current index, `avg` is `len(avgtime)`
(every entered iteration appends one duration at line 63, before any of the
branching). -/
def cglsLoopAux {V P : Type} [AddCommGroup V] [Module ℚ V] [AddCommGroup P] [Module ℚ P]
    (ops : KOps V P) (proj : P) : ℕ → ℕ → ℕ → CGLSState V P → CGLSResult V P
  | 0, _, avg, st => .done st avg
  | n + 1, i, avg, st =>
    match cglsBody ops proj i st with
    | (.abort m stE, _, _) => .err m stE
    | (.ret st1, _, _) => .early st1
    | (.next st1, _, _) => cglsLoopAux ops proj n (i + 1) (avg + 1) st1

/-- `CGLS.run_main_iter` (lines 48-103): preallocate `l2l` with `niter`
zeros, run the loop, and on normal completion with `verbose` print the
average iteration time `sum(avgtime)/len(avgtime)` — which raises
`ZeroDivisionError` when `avgtime` is empty. -/
def cglsRunMain {V P : Type} [AddCommGroup V] [Module ℚ V] [AddCommGroup P] [Module ℚ P]
    (ops : KOps V P) (proj : P) (verbose : Bool) (niter : ℕ) (res0 : V) :
    CGLSResult V P :=
  let st0 := { cglsInit ops proj res0 with l2l := List.replicate niter (0 : ℚ) }
  match cglsLoopAux ops proj niter 0 0 st0 with
  | .done st avg =>
    if verbose && (avg == 0) then .err "ZeroDivisionError: division by zero" st
    else .done st avg
  | r => r

/-! ## LSQR (source lines 107-178) -/

/-- The numeric state of an `LSQR` instance (lines 125-137): the
bidiagonalization pair `u, beta, v, alpha`, rotation scalars
`phibar, rhobar`, the auxiliary direction `w`, the solution `res` and the
(never written) history `l2l`. -/
structure LSQRState (V P : Type) where
  u : P
  beta : ℚ
  phibar : ℚ
  v : V
  alpha : ℚ
  rhobar : ℚ
  w : V
  res : V
  l2l : List ℚ
deriving DecidableEq

/-- `LSQR.__init__` lines 125-137. -/
def lsqrInit {V P : Type} [AddCommGroup V] [Module ℚ V] [AddCommGroup P] [Module ℚ P]
    (ops : KOps V P) (proj : P) (res0 : V) : LSQRState V P :=
  let u0 := proj - ops.Ax res0
  let normr := ops.normP u0
  let u := (1 / normr) • u0
  let v0 := ops.Atb u
  let alpha := ops.normV v0
  let v := (1 / alpha) • v0
  { u := u, beta := normr, phibar := normr, v := v, alpha := alpha,
    rhobar := alpha, w := v, res := res0, l2l := [] }

/-- One iteration of `LSQR.run_main_iter` (lines 149-170) with its
(forward, adjoint) operator-call count: `Ax` once in step (3)(a) and `Atb`
once in step (3)(b).  `LSQR` never writes `l2l`. -/
def lsqrBody {V P : Type} [AddCommGroup V] [Module ℚ V] [AddCommGroup P] [Module ℚ P]
    (ops : KOps V P) (_i : ℕ) (st : LSQRState V P) : LSQRState V P × ℕ × ℕ :=
  let u1 := ops.Ax st.v - st.alpha • st.u
  let beta1 := ops.normP u1
  let u2 := (1 / beta1) • u1
  let v1 := ops.Atb u2 - beta1 • st.v
  let alpha1 := ops.normV v1
  let v2 := (1 / alpha1) • v1
  let rho := ops.sqrt (st.rhobar ^ 2 + beta1 ^ 2)
  let c := st.rhobar / rho
  let s := beta1 / rho
  let theta := s * alpha1
  let rhobar1 := -c * alpha1
  let phi := c * st.phibar
  let phibar1 := s * st.phibar
  ({ st with u := u2, beta := beta1, v := v2, alpha := alpha1,
             rhobar := rhobar1, phibar := phibar1,
             res := st.res + (phi / rho) • st.w,
             w := v2 - (theta / rho) • st.w }, 1, 1)

/-- The `for` loop of `LSQR.run_main_iter`. -/
def lsqrLoopAux {V P : Type} [AddCommGroup V] [Module ℚ V] [AddCommGroup P] [Module ℚ P]
    (ops : KOps V P) : ℕ → ℕ → LSQRState V P → LSQRState V P
  | 0, _, st => st
  | n + 1, i, st => lsqrLoopAux ops n (i + 1) (lsqrBody ops i st).1

/-- `LSQR.run_main_iter` (lines 139-176): preallocate `l2l`, run the loop.
No early exit, no scan, no terminal print. -/
def lsqrRunMain {V P : Type} [AddCommGroup V] [Module ℚ V] [AddCommGroup P] [Module ℚ P]
    (ops : KOps V P) (proj : P) (niter : ℕ) (res0 : V) : LSQRState V P :=
  lsqrLoopAux ops niter 0 { lsqrInit ops proj res0 with l2l := List.replicate niter (0 : ℚ) }

/-! ## LSMR (source lines 181-307) -/

/-- The numeric state of an `LSMR` instance (lines 198-223): the
bidiagonalization pair, the rotation state, the auxiliary vectors `h`,
`hbar`, the residual-norm-estimation chain
`(betadd, betad, rhod, tautilda, thetatilda, zeta, d)`, the solution and the
history. -/
structure LSMRState (V P : Type) where
  u : P
  beta : ℚ
  v : V
  alpha : ℚ
  alphabar : ℚ
  zetabar : ℚ
  rho : ℚ
  rhobar : ℚ
  cbar : ℚ
  sbar : ℚ
  h : V
  hbar : V
  betadd : ℚ
  betad : ℚ
  rhod : ℚ
  tautilda : ℚ
  thetatilda : ℚ
  zeta : ℚ
  d : ℚ
  res : V
  l2l : List ℚ
deriving DecidableEq

/-- `LSMR.__init__` lines 198-223.  Note `self.__hbar__ = 0` is the Python
scalar zero, which later broadcasts as the zero vector: modelled as `0 : V`.
The chain scalar `rhod` is initialized to `1` (line 219). -/
def lsmrInit {V P : Type} [AddCommGroup V] [Module ℚ V] [AddCommGroup P] [Module ℚ P]
    (ops : KOps V P) (proj : P) (res0 : V) : LSMRState V P :=
  let u0 := proj - ops.Ax res0
  let normr := ops.normP u0
  let u := (1 / normr) • u0
  let v0 := ops.Atb u
  let alpha := ops.normV v0
  let v := (1 / alpha) • v0
  { u := u, beta := normr, v := v, alpha := alpha,
    alphabar := alpha, zetabar := alpha * normr,
    rho := 1, rhobar := 1, cbar := 1, sbar := 0,
    h := v, hbar := 0,
    betadd := normr, betad := 0, rhod := 1, tautilda := 0,
    thetatilda := 0, zeta := 0, d := 0,
    res := res0, l2l := [] }

/-- One iteration of `LSMR.run_main_iter` (lines 235-299) with its
(forward, adjoint) call count, `lmbda` being the damping scalar
`self.lmbda`.  Note that at line 279 the quantity `betadd = -s * betaacute`
is bound to a plain local variable, so the state field `self.__betadd__`
(our `betadd`) is never overwritten; the `l2l` slot of line 299 uses the
local value. -/
def lsmrBody {V P : Type} [AddCommGroup V] [Module ℚ V] [AddCommGroup P] [Module ℚ P]
    (ops : KOps V P) (lmbda : ℚ) (i : ℕ) (st : LSMRState V P) :
    LSMRState V P × ℕ × ℕ :=
  let u1 := ops.Ax st.v - st.alpha • st.u
  let beta1 := ops.normP u1
  let u2 := (1 / beta1) • u1
  let v1 := ops.Atb u2 - beta1 • st.v
  let alpha1 := ops.normV v1
  let v2 := (1 / alpha1) • v1
  let alphahat := ops.sqrt (st.alphabar ^ 2 + lmbda ^ 2)
  let chat := st.alphabar / alphahat
  let shat := lmbda / alphahat
  let rhopre := st.rho
  let rho1 := ops.sqrt (alphahat ^ 2 + beta1 ^ 2)
  let c := alphahat / rho1
  let s := beta1 / rho1
  let theta := s * alpha1
  let alphabar1 := c * alpha1
  let thetabar := st.sbar * rho1
  let rhobarpre := st.rhobar
  let rhobar1 := ops.sqrt ((st.cbar * rho1) ^ 2 + theta ^ 2)
  let cbar1 := st.cbar * rho1 / rhobar1
  let sbar1 := theta / rhobar1
  let zetapre := st.zeta
  let zeta1 := cbar1 * st.zetabar
  let zetabar1 := -sbar1 * st.zetabar
  let hbar1 := st.h - (thetabar * rho1 / (rhopre * rhobarpre)) • st.hbar
  let res1 := st.res + (zeta1 / (rho1 * rhobar1)) • hbar1
  let h1 := v2 - (theta / rho1) • st.h
  let betaacute := chat * st.betadd
  let betacheck := -shat * st.betadd
  let betahat := c * betaacute
  let betaddLoc := -s * betaacute
  let rhotilda := ops.sqrt (st.rhod ^ 2 + thetabar ^ 2)
  let ctilda := st.rhod / rhotilda
  let stilda := thetabar / rhotilda
  let thetatildapre := st.thetatilda
  let thetatilda1 := stilda * rhobar1
  let rhod1 := ctilda * rhobar1
  let betad1 := -stilda * st.betad + ctilda * betahat
  let tautilda1 := (zetapre - thetatildapre * st.tautilda) / rhotilda
  let taud := (zeta1 - thetatilda1 * tautilda1) / rhod1
  let d1 := st.d + betacheck ^ 2
  let gammaVar := d1 + (betad1 - taud) ^ 2 + betaddLoc ^ 2
  ({ st with u := u2, beta := beta1, v := v2, alpha := alpha1,
             alphabar := alphabar1, rho := rho1, rhobar := rhobar1,
             cbar := cbar1, sbar := sbar1, zeta := zeta1, zetabar := zetabar1,
             hbar := hbar1, res := res1, h := h1,
             thetatilda := thetatilda1, rhod := rhod1, betad := betad1,
             tautilda := tautilda1, d := d1,
             l2l := st.l2l.set i (ops.sqrt gammaVar) }, 1, 1)

/-- The `for` loop of `LSMR.run_main_iter`. -/
def lsmrLoopAux {V P : Type} [AddCommGroup V] [Module ℚ V] [AddCommGroup P] [Module ℚ P]
    (ops : KOps V P) (lmbda : ℚ) : ℕ → ℕ → LSMRState V P → LSMRState V P
  | 0, _, st => st
  | n + 1, i, st => lsmrLoopAux ops lmbda n (i + 1) (lsmrBody ops lmbda i st).1

/-- `LSMR.run_main_iter` (lines 225-305): preallocate `l2l`, run the loop. -/
def lsmrRunMain {V P : Type} [AddCommGroup V] [Module ℚ V] [AddCommGroup P] [Module ℚ P]
    (ops : KOps V P) (lmbda : ℚ) (proj : P) (niter : ℕ) (res0 : V) : LSMRState V P :=
  lsmrLoopAux ops lmbda niter 0 { lsmrInit ops proj res0 with l2l := List.replicate niter (0 : ℚ) }

/-! ## Float special values and the CGLS NaN scan (source lines 64-69)

For the claims about NaN/Inf detection we model a float value as either a
finite value or one of the special values NaN / Inf (we do not distinguish
the sign of Inf: `np.isnan`/`np.isinf` do not either). -/

/-- A floating-point value: finite, NaN, or (signless) infinite. -/
inductive FV where
  | fin : ℚ → FV
  | nan : FV
  | inf : FV
deriving DecidableEq

/-- `np.isnan` on one value: true exactly on NaN (false on Inf). -/
def isnanFV : FV → Bool
  | .nan => true
  | _ => false

/-- `np.isinf` on one value: true exactly on Inf. -/
def isinfFV : FV → Bool
  | .inf => true
  | _ => false

/-- The float-valued buffers of a `CGLS` instance at the scan of lines 64-69
of `run_main_iter`: the ndarray attributes `proj`, `res` (already stepped by
line 61), `__r__`, `__p__`, `l2l`, and the Python float scalar
`__gamma__`. -/
structure CGLSBuffers where
  proj : List FV
  res : List FV
  r : List FV
  p : List FV
  l2l : List FV
  gamma : FV
deriving DecidableEq

/-- The scan of lines 64-69 over the float model: iterate over the instance
attributes, and for those that are `np.ndarray` raise `ValueError` naming the
attribute if `np.isnan(...).any()`.  The `isinstance(..., np.ndarray)` filter
of line 66 skips the Python float `self.__gamma__`, and no `np.isinf` test is
performed anywhere. -/
def cglsNanScan (st : CGLSBuffers) (i : ℕ) : Option String :=
  if st.proj.any isnanFV then some ("nan found for proj at iteraton " ++ toString i)
  else if st.res.any isnanFV then some ("nan found for res at iteraton " ++ toString i)
  else if st.r.any isnanFV then some ("nan found for _CGLS__r__ at iteraton " ++ toString i)
  else if st.p.any isnanFV then some ("nan found for _CGLS__p__ at iteraton " ++ toString i)
  else if st.l2l.any isnanFV then some ("nan found for l2l at iteraton " ++ toString i)
  else none

/-- Modelled from the spec's words ("Scan every live floating-point state
buffer for NaN/Inf"): a live buffer — array or scalar — contains a NaN or an
Inf value.  This is the property the spec claims the scan detects; it is the
comparison point for `cglsNanScan`, which is the code's actual scan. -/
def specLiveStateCorrupt (st : CGLSBuffers) : Bool :=
  st.proj.any (fun x => isnanFV x || isinfFV x) ||
  st.res.any (fun x => isnanFV x || isinfFV x) ||
  st.r.any (fun x => isnanFV x || isinfFV x) ||
  st.p.any (fun x => isnanFV x || isinfFV x) ||
  st.l2l.any (fun x => isnanFV x || isinfFV x) ||
  isnanFV st.gamma || isinfFV st.gamma

/-- A buffer snapshot whose residual `r` holds an Inf entry and whose other
values are finite: corrupt in the spec's sense, invisible to the code's
scan. -/
def bufInfEx : CGLSBuffers :=
  { proj := [.fin 1], res := [.fin 2], r := [.inf], p := [.fin 0],
    l2l := [.fin 6], gamma := .fin 4 }

/-! ## Concrete one-dimensional instances

For witnesses and counterexamples we instantiate both spaces with `ℚ`
(one-voxel image, one-pixel projection).  The operators are arbitrary
externally-supplied functions, so we are free to pick piecewise tables that
steer a run into the branch under study; the norms are the honest
one-dimensional Euclidean norm `|·|`. -/

/-- A trivial instance: identity operators. -/
def opsId : KOps ℚ ℚ :=
  { Ax := fun x => x, Atb := fun y => y,
    normV := fun x => |x|, normP := fun y => |y|,
    sqrt := fun x => x,
    isnanV := fun _ => false, isnanP := fun _ => false, isnanQ := fun _ => false }

/-- Operator table A: with `proj = 10`, `res0 = 0` and `niter = 4` the CGLS
run has no divergence trigger at iteration 1 and a (first) trigger at
iteration 2, exercising the restart branch there. -/
def opsA : KOps ℚ ℚ :=
  { Ax := fun x =>
      if x = 0 then 0 else if x = 2 then 1 else if x = 8 then 4
      else if x = 3 / 2 then 2 else if x = 67 / 8 then 5
      else if x = 83 / 8 then 2 else 0,
    Atb := fun y =>
      if y = 10 then 2 else if y = 6 then 1 else if y = 11 / 2 then 2
      else if y = 5 then 3 else if y = 4 then 7 else 0,
    normV := fun x => |x|, normP := fun y => |y|,
    sqrt := fun x => x,
    isnanV := fun _ => false, isnanP := fun _ => false, isnanQ := fun _ => false }

/-- Operator table B: with `proj = 10` and `res0 = 0` the CGLS run has its
first-ever divergence trigger at iteration 1 (no restart was ever performed),
exercising the early-exit branch there. -/
def opsB : KOps ℚ ℚ :=
  { Ax := fun x =>
      if x = 0 then 0 else if x = 2 then 1 else if x = 8 then 4
      else if x = 3 / 2 then 2 else if x = 67 / 8 then 1 else 0,
    Atb := fun y =>
      if y = 10 then 2 else if y = 6 then 1 else if y = 11 / 2 then 2
      else if y = 5 then 3 else if y = 4 then 7 else 0,
    normV := fun x => |x|, normP := fun y => |y|,
    sqrt := fun x => x,
    isnanV := fun _ => false, isnanP := fun _ => false, isnanQ := fun _ => false }

/-- The CGLS state under `opsA` (and `opsB`), `proj = 10`, `niter = 4`,
entering iteration 0. -/
def stateA0 : CGLSState ℚ ℚ :=
  { res := 0, r := 10, p := 2, gamma := 4, re_init := 0, l2l := [0, 0, 0, 0] }

/-- The CGLS state under `opsB` entering iteration 1 (also the `opsA` state
entering iteration 1). -/
def stateB1 : CGLSState ℚ ℚ :=
  { res := 8, r := 6, p := 3 / 2, gamma := 1, re_init := 0, l2l := [6, 0, 0, 0] }

/-- The CGLS state under `opsA` entering iteration 2. -/
def stateA2 : CGLSState ℚ ℚ :=
  { res := 67 / 8, r := 11 / 2, p := 8, gamma := 4, re_init := 0, l2l := [6, 5, 0, 0] }

/-- The CGLS state under `opsA` after iteration 2: the iteration triggered a
restart (marker set to 2, `res` reverted to `67/8`, `r`/`p`/`gamma`
reinitialised to `5`/`3`/`9`) and then — the source having no `continue` —
still ran lines 86-94 with the stale `alpha = 1/4` and `q = 4`, leaving
`r = 5 - 1 = 4`, `gamma = 49`, `p = 7 + (49/9)*3 = 70/3`. -/
def stateA3 : CGLSState ℚ ℚ :=
  { res := 67 / 8, r := 4, p := 70 / 3, gamma := 49, re_init := 2, l2l := [6, 5, 8, 0] }

/-- The CGLS state returned by the early exit of the `opsB` run at
iteration 1: `res` still contains the divergent step (`67/8`, not the
reverted `8`), the marker is still its initial `0`, and `l2l` keeps its
preallocated length 4. -/
def exitB : CGLSState ℚ ℚ :=
  { res := 67 / 8, r := 6, p := 3 / 2, gamma := 1, re_init := 0, l2l := [6, 9, 0, 0] }

/-- An instance whose data-space `np.isnan` test reports NaN entries (as it
would on a data buffer holding a NaN float): the scan then aborts on its
first checked array. -/
def opsNan : KOps ℚ ℚ := { opsId with isnanP := fun _ => true }

/-- A buffer snapshot whose only corrupt value is the scalar `gamma = NaN`:
corrupt in the spec's sense, but `gamma` is a Python float, not an
`np.ndarray`, so the scan skips it. -/
def bufGammaNan : CGLSBuffers :=
  { proj := [.fin 1], res := [.fin 2], r := [.fin 3], p := [.fin 0],
    l2l := [.fin 6], gamma := .nan }

/-! ## Helper lemmas -/

/-- Every branch of the CGLS loop body leaves the length of the convergence
history unchanged (the only write is `List.set`). -/
theorem cglsBody_state_l2l_length {V P : Type} [AddCommGroup V] [Module ℚ V]
    [AddCommGroup P] [Module ℚ P] (ops : KOps V P) (proj : P) (i : ℕ)
    (st : CGLSState V P) :
    ((cglsBody ops proj i st).1.state).l2l.length = st.l2l.length := by
  rcases h : cglsScanChk ops proj (cglsRes1 ops st) st i with _ | m <;>
    simp only [cglsBody, h] <;>
    [skip; simp [CGLSBodyOut.state]]
  split_ifs <;>
    simp [CGLSBodyOut.state, cglsTail, reinitialise_cgls, cglsL2l1, List.length_set]

/-- The CGLS loop leaves the length of the convergence history unchanged. -/
theorem cglsLoopAux_l2l_length {V P : Type} [AddCommGroup V] [Module ℚ V]
    [AddCommGroup P] [Module ℚ P] (ops : KOps V P) (proj : P) :
    ∀ (n i avg : ℕ) (st : CGLSState V P),
      (cglsResState (cglsLoopAux ops proj n i avg st)).l2l.length = st.l2l.length := by
  intro n
  induction n with
  | zero => intro i avg st; rfl
  | succ n ih =>
    intro i avg st
    have hb := cglsBody_state_l2l_length ops proj i st
    rcases h : cglsBody ops proj i st with ⟨out, k⟩
    rw [h] at hb
    cases out with
    | abort m stE => simpa [cglsLoopAux, h, cglsResState, CGLSBodyOut.state] using hb
    | ret st1 => simpa [cglsLoopAux, h, cglsResState, CGLSBodyOut.state] using hb
    | next st1 =>
      have := ih (i + 1) (avg + 1) st1
      simp only [cglsLoopAux, h]
      rw [this]
      simpa [CGLSBodyOut.state] using hb

/-- The LSMR loop body never writes the state field `betadd`. -/
theorem lsmrBody_betadd {V P : Type} [AddCommGroup V] [Module ℚ V]
    [AddCommGroup P] [Module ℚ P] (ops : KOps V P) (lmbda : ℚ) (i : ℕ)
    (st : LSMRState V P) : ((lsmrBody ops lmbda i st).1).betadd = st.betadd := rfl

/-- The LSMR loop never changes the state field `betadd`. -/
theorem lsmrLoopAux_betadd {V P : Type} [AddCommGroup V] [Module ℚ V]
    [AddCommGroup P] [Module ℚ P] (ops : KOps V P) (lmbda : ℚ) :
    ∀ (n i : ℕ) (st : LSMRState V P),
      (lsmrLoopAux ops lmbda n i st).betadd = st.betadd := by
  intro n
  induction n with
  | zero => intro i st; rfl
  | succ n ih =>
    intro i st
    rw [lsmrLoopAux, ih (i + 1) ((lsmrBody ops lmbda i st).1), lsmrBody_betadd]

/-! ## Claim theorems -/

/-- Claim C1, counterexample to the claim as stated.  The claim says a
non-consecutive restart iteration reinitialises `(r, p, gamma)` and
"proceeds to the next iteration without performing the subsequent updates
`r -= alpha*q`, `s = Adjoint(r)`, gamma/beta recomputation, `p = s+beta*p`".
In the `opsA` run iteration 2 triggers such a restart: the reinitialised
residual is `5`, but the source has no `continue`, so lines 86-94 still run
with the stale `alpha = 1/4`, `q = 4`, leaving `r = 5 - 1 = 4 ≠ 5` (and
`p = 70/3 ≠ 3`, `gamma = 49 ≠ 9`). -/
theorem c1_counterexample :
    (0 < 2 ∧ (cglsL2l1 opsA 10 2 stateA2).getD (2 - 1) 0 < (cglsL2l1 opsA 10 2 stateA2).getD 2 0) ∧
    stateA2.re_init + 1 ≠ 2 ∧
    (cglsBody opsA 10 2 stateA2).1 = CGLSBodyOut.next stateA3 ∧
    stateA3.re_init = 2 ∧
    (reinitialise_cgls opsA 10
      { stateA2 with res := 67 / 8, l2l := [6, 5, 8, 0], re_init := 2 }).r = 5 ∧
    stateA3.r = 4 ∧ ((4 : ℚ) ≠ 5) := by
  with_unfolding_all decide

/-- Claim C1 (amended): when iteration `i > 0` of CGLS sees the freshly
recomputed residual norm exceed the previous slot and the previous restart
was not at `i - 1`, the solver undoes the step, reinitialises `(r, p, gamma)`
from the reverted `res` exactly as at construction and records the marker
`i`; but it does NOT skip the rest of the iteration: the updates
`r -= alpha*q`, `s = Adjoint(r)`, the gamma/beta recomputation and
`p = s + beta*p` (lines 86-94) are still performed, on the reinitialised
state, with the `alpha` and `q` of the undone step. -/
theorem c1_restart_then_tail {V P : Type} [AddCommGroup V] [Module ℚ V]
    [AddCommGroup P] [Module ℚ P] (ops : KOps V P) (proj : P) (i : ℕ)
    (st : CGLSState V P)
    (hscan : cglsScanChk ops proj (cglsRes1 ops st) st i = none)
    (htr : 0 < i ∧ (cglsL2l1 ops proj i st).getD (i - 1) 0 < (cglsL2l1 ops proj i st).getD i 0)
    (hnc : st.re_init + 1 ≠ i) :
    cglsBody ops proj i st =
      (CGLSBodyOut.next (cglsTail ops
        (reinitialise_cgls ops proj
          { st with res := cglsRes1 ops st - cglsAlpha ops st • st.p,
                    l2l := cglsL2l1 ops proj i st, re_init := i })
        (cglsAlpha ops st) (ops.Ax st.p)), 3, 2) := by
  simp only [cglsBody, hscan]
  rw [if_pos htr, if_neg hnc]

/-- Witness for `c1_restart_then_tail`: iteration 2 of the `opsA` run
satisfies all three hypotheses, and the theorem computes its outcome. -/
theorem c1_restart_then_tail_witness :
    cglsScanChk opsA 10 (cglsRes1 opsA stateA2) stateA2 2 = none ∧
    (0 < 2 ∧ (cglsL2l1 opsA 10 2 stateA2).getD (2 - 1) 0 < (cglsL2l1 opsA 10 2 stateA2).getD 2 0) ∧
    stateA2.re_init + 1 ≠ 2 ∧
    cglsBody opsA 10 2 stateA2 =
      (CGLSBodyOut.next (cglsTail opsA
        (reinitialise_cgls opsA 10
          { stateA2 with res := cglsRes1 opsA stateA2 - cglsAlpha opsA stateA2 • stateA2.p,
                         l2l := cglsL2l1 opsA 10 2 stateA2, re_init := 2 })
        (cglsAlpha opsA stateA2) (opsA.Ax stateA2.p)), 3, 2) :=
  ⟨by with_unfolding_all decide, by with_unfolding_all decide, by decide,
   c1_restart_then_tail opsA 10 2 stateA2 (by with_unfolding_all decide)
     (by with_unfolding_all decide) (by decide)⟩

/-- Claim C2, counterexample to the claim as stated.  The claim says CGLS
exits early only when a restart was actually performed at iteration `i - 1`,
and that a first-ever divergence trigger never exits.  Under `opsB` the very
first divergence trigger of the run happens at iteration 1, no restart was
ever performed (the marker of the returned state still holds its
construction-time value 0 — a performed restart records its iteration index
`i ≥ 1` there), yet the run exits early. -/
theorem c2_counterexample :
    cglsRunMain opsB (10 : ℚ) false 4 (0 : ℚ) = CGLSResult.early exitB ∧
    exitB.re_init = 0 ∧ (cglsInit opsB 10 0).re_init = 0 := by
  with_unfolding_all decide

/-- Claim C2 (amended): a CGLS iteration performs the early return of
line 81 exactly when the NaN scan passes, `i > 0`, the freshly written
history slot exceeds the previous one, and `re_init_at_iteration + 1 = i`.
Since the marker is constructed holding 0 rather than "none", this condition
is also met by a first-ever divergence trigger at iteration 1; only for
`i ≥ 2` does it coincide with "a restart was performed at `i - 1`". -/
theorem c2_early_exit_iff {V P : Type} [AddCommGroup V] [Module ℚ V]
    [AddCommGroup P] [Module ℚ P] (ops : KOps V P) (proj : P) (i : ℕ)
    (st : CGLSState V P) :
    (cglsBody ops proj i st).1.isRet = true ↔
      (cglsScanChk ops proj (cglsRes1 ops st) st i = none ∧
       (0 < i ∧ (cglsL2l1 ops proj i st).getD (i - 1) 0 < (cglsL2l1 ops proj i st).getD i 0) ∧
       st.re_init + 1 = i) := by
  rcases h : cglsScanChk ops proj (cglsRes1 ops st) st i with _ | m
  · by_cases h1 : 0 < i ∧ (cglsL2l1 ops proj i st).getD (i - 1) 0 < (cglsL2l1 ops proj i st).getD i 0
    · by_cases h2 : st.re_init + 1 = i
      · simp only [cglsBody, h]
        rw [if_pos h1, if_pos h2]
        exact iff_of_true rfl ⟨by trivial, h1, h2⟩
      · simp only [cglsBody, h]
        rw [if_pos h1, if_neg h2]
        exact iff_of_false (by simp [CGLSBodyOut.isRet]) (fun hc => h2 hc.2.2)
    · simp only [cglsBody, h]
      rw [if_neg h1]
      exact iff_of_false (by simp [CGLSBodyOut.isRet]) (fun hc => h1 hc.2.1)
  · simp only [cglsBody, h]
    exact iff_of_false (by simp [CGLSBodyOut.isRet]) (fun hc => by simp [h] at hc)

/-- Claim C3, counterexample to the claim as stated.  The claim says the
early exit returns the solution with the divergent step `alpha*p` undone and
produces a history shorter than the requested iteration count.  In the
`opsB` run (4 iterations requested) the early exit at iteration 1 returns
`res = 67/8`, which still CONTAINS the step (`return self.res` at line 81
runs before the undo of line 82); the undone value would have been `8`.  And
`l2l` is preallocated with `niter` slots and never shrunk, so its length is
exactly 4, not less. -/
theorem c3_counterexample :
    (cglsResState (cglsRunMain opsB (10 : ℚ) false 4 (0 : ℚ))).res = 67 / 8 ∧
    cglsRes1 opsB stateB1 - cglsAlpha opsB stateB1 • stateB1.p = 8 ∧
    ((67 / 8 : ℚ) ≠ 8) ∧
    (cglsResState (cglsRunMain opsB (10 : ℚ) false 4 (0 : ℚ))).l2l.length = 4 ∧
    ¬((cglsResState (cglsRunMain opsB (10 : ℚ) false 4 (0 : ℚ))).l2l.length < 4) := by
  with_unfolding_all decide

/-- Claim C3 (amended): when CGLS exits early at iteration `i`, the returned
solution is the stepped `res + alpha*p` of that iteration (the divergent
step is NOT undone), and the convergence history keeps its preallocated
length: for every run, whatever the outcome, the history length equals the
requested iteration count (slots after an early exit simply stay 0). -/
theorem c3_early_exit_state (V P : Type) [AddCommGroup V] [Module ℚ V]
    [AddCommGroup P] [Module ℚ P] :
    (∀ (ops : KOps V P) (proj : P) (i : ℕ) (st st1 : CGLSState V P) (k : ℕ × ℕ),
        cglsBody ops proj i st = (CGLSBodyOut.ret st1, k) →
        st1.res = cglsRes1 ops st ∧ st1.l2l.length = st.l2l.length) ∧
    (∀ (ops : KOps V P) (proj : P) (verbose : Bool) (niter : ℕ) (res0 : V),
        (cglsResState (cglsRunMain ops proj verbose niter res0)).l2l.length = niter) := by
  constructor
  · intro ops proj i st st1 k h
    rcases hs : cglsScanChk ops proj (cglsRes1 ops st) st i with _ | m
    · simp only [cglsBody, hs] at h
      split_ifs at h with h1 h2
      · simp only [Prod.mk.injEq, CGLSBodyOut.ret.injEq] at h
        rcases h with ⟨hst, -⟩
        subst hst
        simp [cglsL2l1, List.length_set]
      · simp at h
      · simp at h
    · simp [cglsBody, hs] at h
  · intro ops proj verbose niter res0
    have h2 := cglsLoopAux_l2l_length ops proj niter 0 0
      { cglsInit ops proj res0 with l2l := List.replicate niter (0 : ℚ) }
    simp only [List.length_replicate] at h2
    simp only [cglsRunMain]
    rcases hr : cglsLoopAux ops proj niter 0 0
        { cglsInit ops proj res0 with l2l := List.replicate niter (0 : ℚ) } with
      ⟨m, st1⟩ | ⟨st1⟩ | ⟨st1, avg⟩ <;>
      rw [hr] at h2 <;> simp only [hr]
    · simpa [cglsResState] using h2
    · simpa [cglsResState] using h2
    · split_ifs <;> simpa [cglsResState] using h2

/-- Witness for `c3_early_exit_state`: applied to the early-exiting
iteration 1 of the `opsB` run and to that 4-iteration run. -/
theorem c3_early_exit_state_witness :
    exitB.res = cglsRes1 opsB stateB1 ∧ exitB.l2l.length = stateB1.l2l.length ∧
    (cglsResState (cglsRunMain opsB (10 : ℚ) false 4 (0 : ℚ))).l2l.length = 4 :=
  ⟨((c3_early_exit_state ℚ ℚ).1 opsB 10 1 stateB1 exitB (2, 0)
      (by with_unfolding_all decide)).1,
   ((c3_early_exit_state ℚ ℚ).1 opsB 10 1 stateB1 exitB (2, 0)
      (by with_unfolding_all decide)).2,
   (c3_early_exit_state ℚ ℚ).2 opsB 10 false 4 0⟩

/-- Claim C4, counterexample to the claim as stated.  The claim says the run
aborts if and only if some live float buffer — array or scalar — contains NaN
or Inf.  `bufInfEx` has an Inf entry in the residual array and `bufGammaNan`
has NaN in the scalar `gamma`: both are corrupt in the spec's sense, yet the
scan of lines 64-69 reports nothing for either (it applies only `np.isnan`,
and only to `np.ndarray` attributes). -/
theorem c4_counterexample :
    specLiveStateCorrupt bufInfEx = true ∧ cglsNanScan bufInfEx 1 = none ∧
    specLiveStateCorrupt bufGammaNan = true ∧ cglsNanScan bufGammaNan 1 = none := by
  decide

/-- Claim C4 (amended): after the step update, the CGLS scan aborts (raising
`ValueError` naming the offending attribute, with no result returned) if and
only if some `np.ndarray` state buffer contains a NaN value; Inf values never
trigger it and the scalar `gamma` is never scanned. -/
theorem c4_scan_iff_nan_array (st : CGLSBuffers) (i : ℕ) :
    (cglsNanScan st i).isSome = true ↔
      (st.proj.any isnanFV || st.res.any isnanFV || st.r.any isnanFV ||
       st.p.any isnanFV || st.l2l.any isnanFV) = true := by
  unfold cglsNanScan
  split_ifs with h1 h2 h3 h4 h5 <;> simp_all

/-- Claim C6, counterexample to the claim as stated.  The claim says that
among the residual-chain scalars every one other than `betadd` is initialized
to zero; but line 219 sets `rhod = 1`. -/
theorem c6_counterexample :
    (lsmrInit opsId (10 : ℚ) (0 : ℚ)).rhod = 1 ∧
    (lsmrInit opsId (10 : ℚ) (0 : ℚ)).rhod ≠ 0 := by
  with_unfolding_all decide

/-- Claim C6 (amended): LSMR initialization sets `alphabar = alpha`,
`zetabar = alpha*beta`, `rho = rhobar = cbar = 1`, `sbar = 0`, `h = v`,
`hbar = 0`, and among the residual-chain scalars `betadd = beta`, `rhod = 1`,
and the remaining ones (`betad`, `tautilda`, `thetatilda`, `zeta`, `d`) to
zero. -/
theorem c6_lsmr_init_values (V P : Type) [AddCommGroup V] [Module ℚ V]
    [AddCommGroup P] [Module ℚ P] (ops : KOps V P) (proj : P) (res0 : V) :
    (lsmrInit ops proj res0).alphabar = (lsmrInit ops proj res0).alpha ∧
    (lsmrInit ops proj res0).zetabar
      = (lsmrInit ops proj res0).alpha * (lsmrInit ops proj res0).beta ∧
    (lsmrInit ops proj res0).rho = 1 ∧
    (lsmrInit ops proj res0).rhobar = 1 ∧
    (lsmrInit ops proj res0).cbar = 1 ∧
    (lsmrInit ops proj res0).sbar = 0 ∧
    (lsmrInit ops proj res0).h = (lsmrInit ops proj res0).v ∧
    (lsmrInit ops proj res0).hbar = 0 ∧
    (lsmrInit ops proj res0).betadd = (lsmrInit ops proj res0).beta ∧
    (lsmrInit ops proj res0).betad = 0 ∧
    (lsmrInit ops proj res0).tautilda = 0 ∧
    (lsmrInit ops proj res0).thetatilda = 0 ∧
    (lsmrInit ops proj res0).zeta = 0 ∧
    (lsmrInit ops proj res0).d = 0 ∧
    (lsmrInit ops proj res0).rhod = 1 :=
  ⟨rfl, rfl, rfl, rfl, rfl, rfl, rfl, rfl, rfl, rfl, rfl, rfl, rfl, rfl, rfl⟩

/-- Claim C7, counterexample to the claim as stated.  The claim says no CGLS
iteration — including a restart iteration — makes more than two forward calls
and one adjoint call; but the restart iteration 2 of the `opsA` run makes
3 forward and 2 adjoint calls (`reinitialise_cgls` itself calls `Ax` and
`Atb` once each on top of the body's own calls). -/
theorem c7_counterexample :
    (cglsBody opsA 10 2 stateA2).2 = (3, 2) ∧ ¬((3 : ℕ) ≤ 2) ∧ ¬((2 : ℕ) ≤ 1) := by
  with_unfolding_all decide

/-- Claim C7 (amended): per main-loop iteration, LSQR and LSMR call the
forward operator exactly once and the adjoint exactly once; a CGLS iteration
calls forward twice and adjoint once when no divergence trigger fires, but an
early-exit iteration makes 2 forward / 0 adjoint calls, a restart iteration
3 forward / 2 adjoint calls, and an iteration aborted by the NaN scan
1 forward / 0 adjoint calls. -/
theorem c7_call_counts (V P : Type) [AddCommGroup V] [Module ℚ V]
    [AddCommGroup P] [Module ℚ P] :
    (∀ (ops : KOps V P) (i : ℕ) (st : LSQRState V P), (lsqrBody ops i st).2 = (1, 1)) ∧
    (∀ (ops : KOps V P) (lmbda : ℚ) (i : ℕ) (st : LSMRState V P),
        (lsmrBody ops lmbda i st).2 = (1, 1)) ∧
    (∀ (ops : KOps V P) (proj : P) (i : ℕ) (st : CGLSState V P) (m : String),
        cglsScanChk ops proj (cglsRes1 ops st) st i = some m →
        (cglsBody ops proj i st).2 = (1, 0)) ∧
    (∀ (ops : KOps V P) (proj : P) (i : ℕ) (st : CGLSState V P),
        cglsScanChk ops proj (cglsRes1 ops st) st i = none →
        ¬(0 < i ∧ (cglsL2l1 ops proj i st).getD (i - 1) 0 < (cglsL2l1 ops proj i st).getD i 0) →
        (cglsBody ops proj i st).2 = (2, 1)) ∧
    (∀ (ops : KOps V P) (proj : P) (i : ℕ) (st : CGLSState V P),
        cglsScanChk ops proj (cglsRes1 ops st) st i = none →
        (0 < i ∧ (cglsL2l1 ops proj i st).getD (i - 1) 0 < (cglsL2l1 ops proj i st).getD i 0) →
        st.re_init + 1 = i →
        (cglsBody ops proj i st).2 = (2, 0)) ∧
    (∀ (ops : KOps V P) (proj : P) (i : ℕ) (st : CGLSState V P),
        cglsScanChk ops proj (cglsRes1 ops st) st i = none →
        (0 < i ∧ (cglsL2l1 ops proj i st).getD (i - 1) 0 < (cglsL2l1 ops proj i st).getD i 0) →
        st.re_init + 1 ≠ i →
        (cglsBody ops proj i st).2 = (3, 2)) := by
  refine ⟨fun ops i st => rfl, fun ops lmbda i st => rfl, ?_, ?_, ?_, ?_⟩
  · intro ops proj i st m h
    simp [cglsBody, h]
  · intro ops proj i st h h1
    simp only [cglsBody, h]
    rw [if_neg h1]
  · intro ops proj i st h h1 h2
    simp only [cglsBody, h]
    rw [if_pos h1, if_pos h2]
  · intro ops proj i st h h1 h2
    simp only [cglsBody, h]
    rw [if_pos h1, if_neg h2]

/-- Witness for `c7_call_counts`: each hypothesis-bearing component applied
to a concrete iteration of the one-dimensional runs. -/
theorem c7_call_counts_witness :
    (lsqrBody opsId 0 (lsqrInit opsId 10 0)).2 = (1, 1) ∧
    (lsmrBody opsId 0 0 (lsmrInit opsId 10 0)).2 = (1, 1) ∧
    (cglsBody opsNan 10 0 stateA0).2 = (1, 0) ∧
    (cglsBody opsA 10 0 stateA0).2 = (2, 1) ∧
    (cglsBody opsB 10 1 stateB1).2 = (2, 0) ∧
    (cglsBody opsA 10 2 stateA2).2 = (3, 2) :=
  ⟨(c7_call_counts ℚ ℚ).1 opsId 0 (lsqrInit opsId 10 0),
   (c7_call_counts ℚ ℚ).2.1 opsId 0 0 (lsmrInit opsId 10 0),
   (c7_call_counts ℚ ℚ).2.2.1 opsNan 10 0 stateA0 "nan found for proj at iteraton 0"
     (by with_unfolding_all decide),
   (c7_call_counts ℚ ℚ).2.2.2.1 opsA 10 0 stateA0
     (by with_unfolding_all decide) (by with_unfolding_all decide),
   (c7_call_counts ℚ ℚ).2.2.2.2.1 opsB 10 1 stateB1
     (by with_unfolding_all decide) (by with_unfolding_all decide) (by decide),
   (c7_call_counts ℚ ℚ).2.2.2.2.2 opsA 10 2 stateA2
     (by with_unfolding_all decide) (by with_unfolding_all decide) (by decide)⟩

/-- Claim C8: running any of the three solvers' main loops with a requested
iteration count of zero leaves the solution estimate identical to the initial
guess supplied at construction (for CGLS this holds for either verbosity: in
verbose mode the final print raises, but the solution is untouched). -/
theorem c8_zero_iter_identity (V P : Type) [AddCommGroup V] [Module ℚ V]
    [AddCommGroup P] [Module ℚ P] :
    (∀ (ops : KOps V P) (proj : P) (res0 : V) (verbose : Bool),
        (cglsResState (cglsRunMain ops proj verbose 0 res0)).res = res0) ∧
    (∀ (ops : KOps V P) (proj : P) (res0 : V), (lsqrRunMain ops proj 0 res0).res = res0) ∧
    (∀ (ops : KOps V P) (lmbda : ℚ) (proj : P) (res0 : V),
        (lsmrRunMain ops lmbda proj 0 res0).res = res0) := by
  refine ⟨fun ops proj res0 verbose => ?_, fun ops proj res0 => rfl,
    fun ops lmbda proj res0 => rfl⟩
  cases verbose <;> rfl

/-- Claim C9: a verbose CGLS run with a requested iteration count of zero
raises `ZeroDivisionError` from the final average-time print
(`sum(avgtime)/len(avgtime)` with `avgtime` empty) instead of completing
normally; the object state at the raise is the freshly constructed one with
the empty preallocated history. -/
theorem c9_verbose_zero_div (V P : Type) [AddCommGroup V] [Module ℚ V]
    [AddCommGroup P] [Module ℚ P] (ops : KOps V P) (proj : P) (res0 : V) :
    cglsRunMain ops proj true 0 res0 =
      CGLSResult.err "ZeroDivisionError: division by zero"
        { cglsInit ops proj res0 with l2l := List.replicate 0 (0 : ℚ) } := rfl

/-- Claim C10: in every LSMR run the state scalar `betadd` is never modified
after initialization — after any number of loop iterations it still equals
the initial residual norm `||proj - Ax(res0)||` computed at construction
(line 279 binds `-s * betaacute` to a local variable only, never writing it
back to the state). -/
theorem c10_betadd_constant (V P : Type) [AddCommGroup V] [Module ℚ V]
    [AddCommGroup P] [Module ℚ P] (ops : KOps V P) (lmbda : ℚ) (proj : P)
    (res0 : V) (niter k : ℕ) :
    (lsmrLoopAux ops lmbda k 0
        { lsmrInit ops proj res0 with l2l := List.replicate niter (0 : ℚ) }).betadd
      = ops.normP (proj - ops.Ax res0) ∧
    (lsmrInit ops proj res0).betadd = ops.normP (proj - ops.Ax res0) :=
  ⟨(lsmrLoopAux_betadd ops lmbda k 0
      { lsmrInit ops proj res0 with l2l := List.replicate niter (0 : ℚ) }).trans rfl,
   rfl⟩
